import Mathlib

/-!
Verification of the `twoway` module of `@ouroboros/app-shared`
(`src/twoway.js`): a websocket subscription multiplexer with an
authorization handshake, keep-alive pings and automatic reconnection.

The module's mutable state (`__ping`, `__close`, `__cookie`, `__socket`,
`__url`, `__services`) is embedded as an explicit record `TwState`.  Each
source function becomes a Lean function from state to state, paired with a
list of observable effects (frames sent, timers started or cleared, error
events triggered, callbacks invoked).  JavaScript platform builtins used by
the source (`JSON.parse`, property access, `ToString`, truthiness) are
modelled explicitly; `JSON.parse` is a parameter of the message handler
since it is a platform collaborator, with `none` standing for a thrown
`SyntaxError`.
-/

/-- JSON values, as produced by `JSON.parse`.  Numbers are modelled as
integers; the inbound frames of the protocol only carry integral codes. -/
inductive Json where
  | null : Json
  | bool : Bool → Json
  | num : Int → Json
  | str : String → Json
  | arr : List Json → Json
  | obj : List (String × Json) → Json

/-- Field lookup inside a JSON object literal. -/
def jfind : List (String × Json) → String → Option Json
  | [], _ => none
  | (k, v) :: t, key => if k = key then some v else jfind t key

mutual
/-- JavaScript `ToString`, as applied by string concatenation and by the
`in` operator's property-key conversion.  `Option.none` at the call sites
below stands for `undefined`. -/
def jsToStr : Json → String
  | .null => "null"
  | .bool b => if b then "true" else "false"
  | .num n => toString n
  | .str s => s
  | .arr xs => jsToStrList xs
  | .obj _ => "[object Object]"

/-- JavaScript `Array.prototype.toString`: elements joined with commas. -/
def jsToStrList : List Json → String
  | [] => ""
  | [x] => jsToStr x
  | x :: xs => jsToStr x ++ "," ++ jsToStrList xs
end

/-- JavaScript `ToString` lifted to a possibly-`undefined` value. -/
def jsToString : Option Json → String
  | none => "undefined"
  | some j => jsToStr j

/-- JavaScript truthiness of a possibly-`undefined` value. -/
def jsTruthy : Option Json → Bool
  | none => false
  | some .null => false
  | some (.bool b) => b
  | some (.num n) => n != 0
  | some (.str s) => s != ""
  | some (.arr _) => true
  | some (.obj _) => true

/-- Property access `j.field` on a value known not to be `null` or
`undefined` (so no `TypeError`): objects look the field up, other values
yield `undefined`. -/
def jsGet (j : Json) (field : String) : Option Json :=
  match j with
  | .obj fs => jfind fs field
  | _ => none

/-- The data of an inbound websocket frame: a string, or anything else
(binary and the like), keeping only its `typeof` name, which is all the
source inspects about a non-string value. -/
inductive WsData where
  | str : String → WsData
  | other : String → WsData

/-- An outbound protocol frame, the argument of `JSON.stringify` at each
`send` site in the source. -/
inductive Frame where
  | connect : String → Frame
  | track : String → String → Frame
  | untrack : String → String → Frame
  | ping : Frame
deriving DecidableEq

/-- What a single `sock.send` call carries: either the batched list built
in the open callback, or a single frame. -/
inductive Wire where
  | batch : List Frame → Wire
  | single : Frame → Wire
deriving DecidableEq

/-- The module-level `__socket` variable: `null`, the literal `false`
(websockets unsupported, or an open is in flight), or a socket object with
its numeric `readyState`. -/
inductive SocketRef where
  | jsNull : SocketRef
  | jsFalse : SocketRef
  | sock : Nat → SocketRef
deriving DecidableEq

/-- The `__services` registry: service name → (key → insertion-ordered
callback list).  JavaScript objects iterate string keys in insertion
order, so both levels are association lists; callbacks are opaque
references, modelled as natural-number identifiers. -/
abbrev Registry := List (String × List (String × List Nat))

/-- Lookup in an association list (the `in` operator plus indexing). -/
def assocFind {α : Type} : List (String × α) → String → Option α
  | [], _ => none
  | (k, v) :: t, key => if k = key then some v else assocFind t key

/-- Assignment `o[key] = v`: replaces in place when the key exists,
appends otherwise — exactly JavaScript's insertion-order behaviour. -/
def assocSet {α : Type} : List (String × α) → String → α → List (String × α)
  | [], key, v => [(key, v)]
  | (k, w) :: t, key, v =>
      if k = key then (k, v) :: t else (k, w) :: assocSet t key v

/-- Deletion `delete o[key]`. -/
def assocRemove {α : Type} : List (String × α) → String → List (String × α)
  | [], _ => []
  | (k, w) :: t, key =>
      if k = key then assocRemove t key else (k, w) :: assocRemove t key

/-- The observable effects of one synchronous run of a source function. -/
inductive Effect where
  /-- `events.trigger('error', msg)`. -/
  | error : String → Effect
  /-- A registered callback invoked with `oMsg.data` (possibly
  `undefined`). -/
  | cb : Nat → Option Json → Effect
  /-- `sock.send(JSON.stringify(w))`. -/
  | send : Wire → Effect
  /-- `setInterval(_ping, period)`. -/
  | setIntervalPing : Nat → Effect
  /-- `clearInterval(id)`. -/
  | clearInterval : Nat → Effect
  /-- `setTimeout(_openSocket, delay)`. -/
  | setTimeoutReconnect : Nat → Effect
  /-- The call to `_openSocket()` made by `track` (asynchronous: it starts
  a handshake round trip whose completion is `_openSocketResolved`). -/
  | callOpenSocket : Effect
  /-- `sock.close(code, reason)`. -/
  | closeSock : Nat → String → Effect

/-- The module state: the six module-level variables of `twoway.js`, plus
`nextTimer`, which models the platform's allocation of fresh
`setInterval` ids. -/
structure TwState where
  ping : Option Nat
  close : Bool
  cookie : String
  socket : SocketRef
  url : String
  services : Registry
  nextTimer : Nat

/-- The state at module load: `__ping = null`, `__close = true`,
`__cookie = ''`, `__socket = null`, `__url = ''`, `__services = {}`. -/
def twInit : TwState :=
  { ping := none, close := true, cookie := "", socket := .jsNull,
    url := "", services := [], nextTimer := 1 }

/-- Result of a source function: the new module state and its effects. -/
structure StepResult where
  st : TwState
  effects : List Effect

/-- Source function `_addTrack(service, key, callback)`: creates the service entry and the
key's list as needed, appending the callback. -/
def _addTrack (r : Registry) (service key : String) (cb : Nat) : Registry :=
  let ks := (assocFind r service).getD []
  let cbs :=
    match assocFind ks key with
    | none => [cb]
    | some cbs => cbs ++ [cb]
  assocSet r service (assocSet ks key cbs)

/-- Source function `_handleClose()`: clears the ping interval when one is set (without
resetting the handle), then either releases the socket (intentional
close) or flips the flag and schedules `_openSocket` in 5000 ms. -/
def _handleClose (st : TwState) : StepResult :=
  let clearEffs :=
    match st.ping with
    | some id => [Effect.clearInterval id]
    | none => []
  if st.close then
    ⟨{ st with socket := .jsNull }, clearEffs⟩
  else
    ⟨{ st with close := true }, clearEffs ++ [Effect.setTimeoutReconnect 5000]⟩

/-- Result of `_handleMessage`: the new state, the effects produced before
returning or throwing, and whether the handler threw (`SyntaxError` from
`JSON.parse`, or `TypeError` from a property access on `undefined` or
`null`). -/
structure HandlerResult where
  st : TwState
  effects : List Effect
  thrown : Bool

/-- The body of the second half of `_handleMessage` for a decoded message
that is neither `undefined` nor `null` (so the `oMsg.error` access cannot
throw): report a backend error when the `error` field is truthy,
otherwise dispatch to the registered callbacks of the message's topic. -/
def handleStruct (st : TwState) (j : Json) (effs : List Effect) :
    HandlerResult :=
  if jsTruthy (jsGet j "error") then
    let e := (jsGet j "error").getD .null
    ⟨st, effs ++ [Effect.error ("twoway: Websocket failed: " ++
        jsToString (jsGet e "msg") ++ " (" ++
        jsToString (jsGet e "code") ++ ")")], false⟩
  else
    match assocFind st.services (jsToString (jsGet j "service")) with
    | none => ⟨st, effs, false⟩
    | some ks =>
      match assocFind ks (jsToString (jsGet j "key")) with
      | none => ⟨st, effs, false⟩
      | some cbs =>
        ⟨st, effs ++ cbs.map (fun f => Effect.cb f (jsGet j "data")), false⟩

/-- The second half of `_handleMessage`, from `if (oMsg.error)` on, with
`oMsg` the decoded message (`none` = `undefined`, reached on non-string
data) and `effs` the effects already produced.  A member access on
`undefined` or `null` throws a `TypeError`. -/
def handleDecoded (st : TwState) (oMsg : Option Json) (effs : List Effect) :
    HandlerResult :=
  match oMsg with
  | none => ⟨st, effs, true⟩
  | some .null => ⟨st, effs, true⟩
  | some j => handleStruct st j effs

/-- Source function `_handleMessage(sock, ev)`: strings `authorized` and `pong` are control
frames; any other string goes through `JSON.parse` (the `parse` parameter,
with `none` for a thrown `SyntaxError`); non-string data triggers the
unknown-data error and then falls through to `oMsg.error` with `oMsg`
still `undefined`. -/
def _handleMessage (parse : String → Option Json) (st : TwState)
    (data : WsData) : HandlerResult :=
  match data with
  | .str s =>
    if s = "authorized" then
      ⟨{ st with close := false }, [], false⟩
    else if s = "pong" then
      ⟨st, [], false⟩
    else
      match parse s with
      | none => ⟨st, [], true⟩
      | some oMsg => handleDecoded st (some oMsg) []
  | .other tname =>
      handleDecoded st none
        [Effect.error ("twoway: websocket failed, got unknown data: " ++ tname)]

/-- The synchronous continuation of `_openSocket` once the `webpoll`
handshake resolves: creates the websocket (or records `false` and
reports when unsupported) and starts the 300000 ms ping interval when the
handle is `null`. -/
def _openSocketResolved (st : TwState) (wsSupported : Bool) : StepResult :=
  if wsSupported then
    let st := { st with socket := .sock 0 }
    match st.ping with
    | none =>
        ⟨{ st with ping := some st.nextTimer, nextTimer := st.nextTimer + 1 },
          [Effect.setIntervalPing 300000]⟩
    | some _ => ⟨st, []⟩
  else
    ⟨{ st with socket := .jsFalse },
      [Effect.error "twoway: Websockets not supported"]⟩

/-- The batched message list built in `_openSocket`'s open callback: the
connect frame with the handshake key, then one track frame per
service/key pair, in registry iteration order. -/
def openBatch (r : Registry) (key : String) : List Frame :=
  Frame.connect key ::
    r.flatMap (fun p => p.2.map (fun q => Frame.track p.1 q.1))

/-- The open callback of `_openSocket`: one `sock.send` of the batch. -/
def _openSocketOnOpen (st : TwState) (key : String) : List Effect :=
  [Effect.send (.batch (openBatch st.services key))]

/-- Source function `_ping()`: sends the keep-alive frame over the socket. -/
def _ping : List Effect :=
  [Effect.send (.single .ping)]

/-- Source function `init(url)`. -/
def init (st : TwState) (url : String) : TwState :=
  { st with url := url }

/-- Source function `track(service, key, callback)`: registers the callback, then opens a
socket when there is none, or sends the single track frame when the
socket's `readyState` is 1. -/
def track (st : TwState) (service key : String) (cb : Nat) : StepResult :=
  let st := { st with services := _addTrack st.services service key cb }
  match st.socket with
  | .jsNull => ⟨{ st with socket := .jsFalse }, [Effect.callOpenSocket]⟩
  | .jsFalse => ⟨st, []⟩
  | .sock rs =>
      if rs = 1 then
        ⟨st, [Effect.send (.single (.track service key))]⟩
      else
        ⟨st, []⟩

/-- The splice loop of `untrack`: removes the first occurrence of the
callback, `none` when it is not in the list. -/
def removeFirst : List Nat → Nat → Option (List Nat)
  | [], _ => none
  | x :: xs, cb =>
      if x = cb then some xs else (removeFirst xs cb).map (fun l => x :: l)

/-- Result of `untrack`: new state, effects, and the returned boolean. -/
structure UntrackResult where
  st : TwState
  effects : List Effect
  found : Bool

/-- Source function `untrack(service, key, callback)`: removes the first matching
callback; when its list empties, sends the untrack frame (socket open),
prunes the key, then the service, and on a fully empty registry clears
the ping interval, nulls its handle, sets the close flag and closes a
truthy socket with `(1000, 'nothing else to track')`. -/
def untrack (st : TwState) (service key : String) (cb : Nat) : UntrackResult :=
  match assocFind st.services service with
  | none => ⟨st, [], false⟩
  | some ks =>
    match assocFind ks key with
    | none => ⟨st, [], false⟩
    | some cbs =>
      match removeFirst cbs cb with
      | none => ⟨st, [], false⟩
      | some cbs' =>
        if cbs' = [] then
          let sendEffs :=
            match st.socket with
            | .sock rs =>
                if rs = 1 then
                  [Effect.send (.single (.untrack service key))]
                else []
            | _ => []
          let ks' := assocRemove ks key
          if ks' = [] then
            let services' := assocRemove st.services service
            if services' = [] then
              let clearEffs :=
                match st.ping with
                | some id => [Effect.clearInterval id]
                | none => []
              let closeEffs :=
                match st.socket with
                | .sock _ => [Effect.closeSock 1000 "nothing else to track"]
                | _ => []
              ⟨{ st with services := services', ping := none, close := true },
                sendEffs ++ clearEffs ++ closeEffs, true⟩
            else
              ⟨{ st with services := services' }, sendEffs, true⟩
          else
            ⟨{ st with services := assocSet st.services service ks' },
              sendEffs, true⟩
        else
          ⟨{ st with services :=
                assocSet st.services service (assocSet ks key cbs') },
            [], true⟩

/-- Effects that are `sock.send` calls. -/
def isSendEff : Effect → Bool
  | .send _ => true
  | _ => false

/-- Effects that schedule the `_openSocket` reconnect timeout. -/
def isReconnectEff : Effect → Bool
  | .setTimeoutReconnect _ => true
  | _ => false

/-- Effects that start the keep-alive interval. -/
def isIntervalEff : Effect → Bool
  | .setIntervalPing _ => true
  | _ => false

/-- Effects that are `sock.close` calls. -/
def isCloseEff : Effect → Bool
  | .closeSock _ _ => true
  | _ => false

/-- The four connection states named by the specification. -/
inductive ConnState where
  | closed : ConnState
  | connecting : ConnState
  | openUnauthorized : ConnState
  | openAuthorized : ConnState
deriving DecidableEq

/-- The specification's connection state, read off the embedded module
state: no socket reference means `Closed`; the literal `false` or a
socket still connecting means `Connecting`; a socket at `readyState` 1 is
`Open-Unauthorized` until the `authorized` control frame clears the close
flag, after which it is `Open-Authorized`.  This definition follows the
spec's state machine, for comparison against the source's behaviour. -/
def specConnState (st : TwState) : ConnState :=
  match st.socket with
  | .jsNull => .closed
  | .jsFalse => .connecting
  | .sock rs =>
      if rs = 1 then
        if st.close then .openUnauthorized else .openAuthorized
      else .connecting

/-- Nested lookup `__services[service][key]`. -/
def lookup2 (r : Registry) (s k : String) : Option (List Nat) :=
  match assocFind r s with
  | none => none
  | some ks => assocFind ks k

/-- Every effect of `handleStruct` is an already-produced effect, a
callback invocation, or the backend-error report. -/
theorem handleStruct_mem_effects (st : TwState) (j : Json)
    (effs : List Effect) (e : Effect)
    (he : e ∈ (handleStruct st j effs).effects) :
    e ∈ effs ∨ (∃ f p, e = Effect.cb f p) ∨
      (∃ m, e = Effect.error ("twoway: Websocket failed: " ++ m)) := by
  unfold handleStruct at he
  by_cases htr : jsTruthy (jsGet j "error") = true
  · simp only [htr, if_true] at he
    rcases List.mem_append.mp he with h | h
    · exact .inl h
    · right; right
      simp only [List.mem_singleton] at h
      subst h
      refine ⟨jsToString (jsGet ((jsGet j "error").getD .null) "msg") ++
        (" (" ++ (jsToString (jsGet ((jsGet j "error").getD .null) "code") ++
          ")")), ?_⟩
      simp [String.append_assoc]
  · simp only [htr, Bool.false_eq_true, if_false] at he
    split at he
    · exact .inl he
    · split at he
      · exact .inl he
      · rcases List.mem_append.mp he with h | h
        · exact .inl h
        · rcases List.mem_map.mp h with ⟨f, _, hf⟩
          exact .inr (.inl ⟨f, _, hf.symm⟩)

/-- Every effect of `handleDecoded` is an already-produced effect, a
callback invocation, or the backend-error report. -/
theorem handleDecoded_mem_effects (st : TwState) (oMsg : Option Json)
    (effs : List Effect) (e : Effect)
    (he : e ∈ (handleDecoded st oMsg effs).effects) :
    e ∈ effs ∨ (∃ f p, e = Effect.cb f p) ∨
      (∃ m, e = Effect.error ("twoway: Websocket failed: " ++ m)) := by
  cases oMsg with
  | none => exact .inl (by simpa [handleDecoded] using he)
  | some j =>
    cases j
    case null => exact .inl (by simpa [handleDecoded] using he)
    all_goals
      exact handleStruct_mem_effects _ _ _ _ (by simpa [handleDecoded] using he)

/-- C1 counterexample: in a state with an open socket and no keepalive
timer running, receiving the bare string `authorized` leaves the timer
handle unset and produces no effect at all — in particular no timer is
started, contradicting the claim that one is running afterwards. -/
theorem C1_counterexample :
    (_handleMessage (fun _ => none) { twInit with socket := .sock 1 }
        (.str "authorized")).st.ping = none ∧
    (_handleMessage (fun _ => none) { twInit with socket := .sock 1 }
        (.str "authorized")).effects = [] :=
  ⟨rfl, rfl⟩

/-- C1 (amended): on receiving `authorized` the message handler only
clears the intentional-close flag and returns, starting no timer; the
keepalive timer — a 300000 ms interval whose tick sends the ping frame —
is instead started by `_openSocket` when the handshake response arrives,
exactly when the timer handle is `null`. -/
theorem C1_authorized_clears_flag_only (parse : String → Option Json)
    (st : TwState) :
    _handleMessage parse st (.str "authorized") =
      ⟨{ st with close := false }, [], false⟩ ∧
    (st.ping = none →
      (_openSocketResolved st true).effects = [Effect.setIntervalPing 300000]) ∧
    (∀ id, st.ping = some id →
      (_openSocketResolved st true).effects = [] ∧
      (_openSocketResolved st true).st.ping = some id) ∧
    _ping = [Effect.send (.single .ping)] := by
  refine ⟨rfl, ?_, ?_, rfl⟩
  · intro h
    simp [_openSocketResolved, h]
  · intro id h
    simp [_openSocketResolved, h]

/-- C1 witness: the amended theorem applied at concrete states, with and
without a running timer. -/
theorem C1_authorized_clears_flag_only_witness :
    (_openSocketResolved twInit true).effects =
      [Effect.setIntervalPing 300000] ∧
    (_openSocketResolved { twInit with ping := some 5 } true).effects = [] :=
  ⟨((C1_authorized_clears_flag_only (fun _ => none) twInit).2.1 rfl),
   (((C1_authorized_clears_flag_only (fun _ => none)
      { twInit with ping := some 5 }).2.2.1 5 rfl).1)⟩

/-- C2 counterexample: the non-JSON string `hello` (with `JSON.parse`
throwing on it, modelled by the parse function returning `none`) makes
the handler throw with no effects at all — no `unknown data` error is
reported, contradicting the claim. -/
theorem C2_counterexample :
    (_handleMessage (fun _ => none) twInit (.str "hello")).thrown = true ∧
    (_handleMessage (fun _ => none) twInit (.str "hello")).effects = [] :=
  ⟨rfl, rfl⟩

/-- C2 (amended): a string frame other than `authorized` and `pong` is
JSON-decoded; when decoding fails the handler throws the `JSON.parse`
exception with no error reported, and in every case the handler never
reports the unknown-data error for a string frame — every effect it can
produce is a callback invocation or the backend-error report. -/
theorem C2_unknown_string_parsed_not_reported (parse : String → Option Json)
    (st : TwState) (s : String)
    (h1 : s ≠ "authorized") (h2 : s ≠ "pong") :
    (parse s = none → _handleMessage parse st (.str s) = ⟨st, [], true⟩) ∧
    (∀ e ∈ (_handleMessage parse st (.str s)).effects,
      (∃ f p, e = Effect.cb f p) ∨
      (∃ m, e = Effect.error ("twoway: Websocket failed: " ++ m))) := by
  constructor
  · intro hp
    simp [_handleMessage, h1, h2, hp]
  · intro e he
    simp only [_handleMessage, if_neg h1, if_neg h2] at he
    cases hp : parse s with
    | none => rw [hp] at he; simp at he
    | some j =>
      rw [hp] at he
      rcases handleDecoded_mem_effects _ _ _ _ he with h | h
      · simp at h
      · exact h

/-- C2 witness: the amended theorem applied to the concrete non-JSON
string `x` in the initial state. -/
theorem C2_unknown_string_parsed_not_reported_witness :
    _handleMessage (fun _ => none) twInit (.str "x") = ⟨twInit, [], true⟩ :=
  (C2_unknown_string_parsed_not_reported (fun _ => none) twInit "x"
    (by decide) (by decide)).1 rfl

/-- C3: on a close notification, an intentional close (flag true)
releases the socket reference and schedules no reconnect, while an
unexpected close (flag false) sets the flag back to true and schedules
exactly one reconnect with a 5000 ms delay. -/
theorem C3_close_handling (st : TwState) :
    (st.close = true →
      (_handleClose st).st.socket = .jsNull ∧
      (_handleClose st).effects.countP isReconnectEff = 0) ∧
    (st.close = false →
      (_handleClose st).st.close = true ∧
      (_handleClose st).effects.filter isReconnectEff =
        [Effect.setTimeoutReconnect 5000]) := by
  cases hc : st.close <;> cases hp : st.ping <;>
    simp [_handleClose, hc, hp, isReconnectEff]

/-- C3 witness: the theorem applied at a state with the flag set (initial
state) and at one with it cleared. -/
theorem C3_close_handling_witness :
    ((_handleClose twInit).st.socket = .jsNull ∧
      (_handleClose twInit).effects.countP isReconnectEff = 0) ∧
    ((_handleClose { twInit with close := false }).st.close = true ∧
      (_handleClose { twInit with close := false }).effects.filter
        isReconnectEff = [Effect.setTimeoutReconnect 5000]) :=
  ⟨(C3_close_handling twInit).1 rfl,
   (C3_close_handling { twInit with close := false }).2 rfl⟩

/-- C10: any non-string frame triggers exactly one unknown-data error on
the event sink and then throws (the `oMsg.error` access with `oMsg` still
`undefined`), so the handler does not return normally on such frames. -/
theorem C10_nonstring_error_then_throw (parse : String → Option Json)
    (st : TwState) (tname : String) :
    _handleMessage parse st (.other tname) =
      ⟨st,
        [Effect.error ("twoway: websocket failed, got unknown data: " ++ tname)],
        true⟩ :=
  rfl

/-- Removing the only callback of a singleton list. -/
theorem removeFirst_singleton (cb : Nat) : removeFirst [cb] cb = some [] := by
  simp [removeFirst]

/-- The splice loop empties the list exactly when the list was the
singleton of the removed callback. -/
theorem removeFirst_eq_some_nil {cbs : List Nat} {cb : Nat}
    (h : removeFirst cbs cb = some []) : cbs = [cb] := by
  cases cbs with
  | nil => simp [removeFirst] at h
  | cons x xs =>
    by_cases hx : x = cb
    · subst hx
      simp [removeFirst] at h
      simp [h]
    · cases hr : removeFirst xs cb with
      | none => simp [removeFirst, hx, hr] at h
      | some l => simp [removeFirst, hx, hr] at h

/-- C4 counterexample: with the transport open at `readyState` 1 but the
close flag still set — the spec's `Open-Unauthorized` state, before the
`authorized` control frame has arrived — a `track` call does send the
per-topic frame, contradicting the claim that nothing is sent outside
`Open-Authorized`. -/
theorem C4_counterexample :
    specConnState { twInit with socket := .sock 1 } =
      ConnState.openUnauthorized ∧
    (track { twInit with socket := .sock 1 } "chat" "room1" 0).effects =
      [Effect.send (.single (.track "chat" "room1"))] :=
  ⟨rfl, rfl⟩

/-- C4 (amended): the single per-topic frame — the track frame of `track`,
and the untrack frame of `untrack` when the key's callback list becomes
empty — is sent immediately if and only if the transport reference is a
socket at `readyState` 1 (transport open, which covers both
`Open-Unauthorized` and `Open-Authorized`); with no socket, a socket
still connecting, or websockets unsupported, nothing is sent. -/
theorem C4_send_iff_transport_open (st : TwState) (s k : String) (cb : Nat) :
    ((track st s k cb).effects.filter isSendEff =
      if st.socket = .sock 1 then [Effect.send (.single (.track s k))]
      else []) ∧
    ((untrack st s k cb).effects.filter isSendEff =
      if st.socket = .sock 1 ∧ lookup2 st.services s k = some [cb] then
        [Effect.send (.single (.untrack s k))]
      else []) := by
  constructor
  · cases hs : st.socket with
    | jsNull => simp [track, hs, isSendEff]
    | jsFalse => simp [track, hs]
    | sock rs =>
      by_cases hr : rs = 1
      · subst hr
        simp [track, hs, isSendEff]
      · simp [track, hs, hr, isSendEff]
  · cases h1 : assocFind st.services s with
    | none => simp [untrack, lookup2, h1]
    | some ks =>
      cases h2 : assocFind ks k with
      | none => simp [untrack, lookup2, h1, h2]
      | some cbs =>
        cases h3 : removeFirst cbs cb with
        | none =>
          have hne : ¬(st.socket = .sock 1 ∧ cbs = [cb]) := by
            rintro ⟨-, rfl⟩
            rw [removeFirst_singleton] at h3
            exact Option.noConfusion h3
          simp [untrack, lookup2, h1, h2, h3, hne]
        | some cbs' =>
          by_cases hnil : cbs' = []
          · subst hnil
            have hcbs : cbs = [cb] := removeFirst_eq_some_nil h3
            subst hcbs
            have hlk : lookup2 st.services s k = some [cb] := by
              simp [lookup2, h1, h2]
            by_cases hks : assocRemove ks k = [] <;>
            by_cases hsvc : assocRemove st.services s = [] <;>
            rcases hp : st.ping with _ | pid <;>
            rcases hsock : st.socket with _ | _ | rs <;>
            first
              | (by_cases hr : rs = 1 <;>
                  simp [untrack, h1, h2, h3, hks, hsvc, hp, hsock, hr, hlk,
                    isSendEff, List.filter_append])
              | simp [untrack, h1, h2, h3, hks, hsvc, hp, hsock, hlk,
                  isSendEff, List.filter_append]
          · have hne : ¬(st.socket = .sock 1 ∧ cbs = [cb]) := by
              rintro ⟨-, rfl⟩
              rw [removeFirst_singleton] at h3
              exact hnil (Option.some.injEq _ _ ▸ h3.symm)
            simp [untrack, lookup2, h1, h2, h3, hnil, hne]

/-- The track frames of the open-callback batch: one per service/key pair,
in registry iteration order (the nested `for..in` loops of the source). -/
def trackFrames (r : Registry) : List Frame :=
  r.flatMap (fun p => p.2.map (fun q => Frame.track p.1 q.1))

/-- Well-formedness of the registry mirrors JavaScript objects: the
service names are pairwise distinct, and so are the keys of each
service. -/
def RegNodup (r : Registry) : Prop :=
  (r.map Prod.fst).Nodup ∧ ∀ p ∈ r, (p.2.map Prod.fst).Nodup

/-- An association-list lookup succeeds exactly on present keys. -/
theorem assocFind_isSome_iff {α : Type} (l : List (String × α)) (k : String) :
    (assocFind l k).isSome ↔ k ∈ l.map Prod.fst := by
  induction l with
  | nil => simp [assocFind]
  | cons p t ih =>
    obtain ⟨k1, v1⟩ := p
    by_cases h : k1 = k
    · subst h
      simp [assocFind]
    · simp only [assocFind, if_neg h, List.map_cons, List.mem_cons]
      rw [ih]
      constructor
      · intro hk
        exact .inr hk
      · rintro (h1 | h1)
        · exact absurd h1.symm h
        · exact h1

/-- A service absent from the registry contributes no track frame. -/
theorem count_trackFrames_of_not_mem {r : Registry} {s k : String}
    (h : s ∉ r.map Prod.fst) :
    (trackFrames r).count (Frame.track s k) = 0 := by
  rw [List.count_eq_zero]
  intro hmem
  rcases List.mem_flatMap.mp hmem with ⟨p, hp, hin⟩
  rcases List.mem_map.mp hin with ⟨q, _, heq⟩
  obtain ⟨e1, -⟩ := Frame.track.inj heq
  exact h (e1 ▸ List.mem_map_of_mem Prod.fst hp)

/-- Inside one service with distinct keys, a key contributes exactly one
track frame when present and none otherwise. -/
theorem count_map_track (s : String) (ks : List (String × List Nat))
    (k : String) (h : (ks.map Prod.fst).Nodup) :
    (ks.map (fun q => Frame.track s q.1)).count (Frame.track s k) =
      if (assocFind ks k).isSome then 1 else 0 := by
  have hmm : ks.map (fun q => Frame.track s q.1) =
      (ks.map Prod.fst).map (Frame.track s) := by
    rw [List.map_map]; rfl
  have hinj : Function.Injective (Frame.track s) := by
    intro a b hab
    exact (Frame.track.inj hab).2
  rw [hmm, List.count_map_of_injective _ _ hinj]
  by_cases hk : k ∈ ks.map Prod.fst
  · rw [if_pos ((assocFind_isSome_iff _ _).mpr hk)]
    exact List.count_eq_one_of_mem h hk
  · rw [if_neg (fun hs => hk ((assocFind_isSome_iff _ _).mp hs))]
    exact List.count_eq_zero.mpr hk

/-- Frames of one service never collide with a different service name. -/
theorem count_map_track_ne (s1 s k : String) (ks : List (String × List Nat))
    (h : s1 ≠ s) :
    (ks.map (fun q => Frame.track s1 q.1)).count (Frame.track s k) = 0 := by
  rw [List.count_eq_zero]
  intro hmem
  rcases List.mem_map.mp hmem with ⟨q, _, heq⟩
  exact h (Frame.track.inj heq).1

/-- In a well-formed registry, each service/key pair contributes exactly
one track frame to the batch, and absent pairs contribute none. -/
theorem trackFrames_count (r : Registry) (h : RegNodup r) (s k : String) :
    (trackFrames r).count (Frame.track s k) =
      if (lookup2 r s k).isSome then 1 else 0 := by
  induction r with
  | nil => simp [trackFrames, lookup2, assocFind]
  | cons p t ih =>
    obtain ⟨s1, ks⟩ := p
    obtain ⟨hnd, hall⟩ := h
    rw [List.map_cons, List.nodup_cons] at hnd
    have htail : RegNodup t :=
      ⟨hnd.2, fun q hq => hall q (List.mem_cons_of_mem _ hq)⟩
    have hexp : trackFrames ((s1, ks) :: t) =
        ks.map (fun q => Frame.track s1 q.1) ++ trackFrames t := by
      simp [trackFrames]
    rw [hexp, List.count_append]
    by_cases hs : s1 = s
    · subst hs
      rw [count_map_track s1 ks k (hall (s1, ks) (List.mem_cons_self _ _))]
      rw [count_trackFrames_of_not_mem hnd.1]
      simp [lookup2, assocFind]
    · rw [count_map_track_ne s1 s k ks hs, ih htail]
      have : lookup2 ((s1, ks) :: t) s k = lookup2 t s k := by
        simp [lookup2, assocFind, hs]
      rw [this, Nat.zero_add]

/-- C5: on every successful transport open, the open callback sends
exactly one batch frame: the connect frame with the handshake key
followed by the track frames of the registry in iteration order, and —
when the registry is well formed — exactly one track frame per
service/key pair present. -/
theorem C5_open_batch (st : TwState) (key : String)
    (h : RegNodup st.services) :
    _openSocketOnOpen st key =
      [Effect.send (.batch (Frame.connect key :: trackFrames st.services))] ∧
    ∀ s k, (trackFrames st.services).count (Frame.track s k) =
      if (lookup2 st.services s k).isSome then 1 else 0 :=
  ⟨rfl, fun s k => trackFrames_count st.services h s k⟩

/-- A concrete registry with three topics across two services. -/
def regW : Registry :=
  [("s1", [("k1", [0]), ("k2", [1])]), ("s2", [("k3", [2])])]

/-- C5 witness: the theorem at a concrete three-topic registry — one
batch with the connect frame followed by the three track frames in
registry order, and a present pair counted exactly once. -/
theorem C5_open_batch_witness :
    _openSocketOnOpen { twInit with services := regW } "K" =
      [Effect.send (.batch [Frame.connect "K", Frame.track "s1" "k1",
        Frame.track "s1" "k2", Frame.track "s2" "k3"])] ∧
    (trackFrames regW).count (Frame.track "s1" "k2") = 1 :=
  ⟨(C5_open_batch { twInit with services := regW } "K"
      ⟨by decide, by decide⟩).1,
   (C5_open_batch { twInit with services := regW } "K"
      ⟨by decide, by decide⟩).2 "s1" "k2"⟩

/-- Elements after an assignment: an old entry or the assigned pair. -/
theorem mem_assocSet {α : Type} {l : List (String × α)} {k : String} {v : α}
    {p : String × α} (h : p ∈ assocSet l k v) : p ∈ l ∨ p = (k, v) := by
  induction l with
  | nil =>
    simp only [assocSet] at h
    exact .inr (List.mem_singleton.mp h)
  | cons q t ih =>
    obtain ⟨k1, v1⟩ := q
    simp only [assocSet] at h
    by_cases hk : k1 = k
    · rw [if_pos hk] at h
      rcases List.mem_cons.mp h with h1 | h1
      · exact .inr (hk ▸ h1)
      · exact .inl (List.mem_cons_of_mem _ h1)
    · rw [if_neg hk] at h
      rcases List.mem_cons.mp h with h1 | h1
      · exact .inl (h1 ▸ List.mem_cons_self _ _)
      · rcases ih h1 with h2 | h2
        · exact .inl (List.mem_cons_of_mem _ h2)
        · exact .inr h2

/-- Elements after a deletion were elements before. -/
theorem mem_assocRemove {α : Type} {l : List (String × α)} {k : String}
    {p : String × α} (h : p ∈ assocRemove l k) : p ∈ l := by
  induction l with
  | nil => simp [assocRemove] at h
  | cons q t ih =>
    obtain ⟨k1, v1⟩ := q
    simp only [assocRemove] at h
    by_cases hk : k1 = k
    · rw [if_pos hk] at h
      exact List.mem_cons_of_mem _ (ih h)
    · rw [if_neg hk] at h
      rcases List.mem_cons.mp h with h1 | h1
      · exact h1 ▸ List.mem_cons_self _ _
      · exact List.mem_cons_of_mem _ (ih h1)

/-- A successful lookup exhibits a registry entry. -/
theorem assocFind_mem {α : Type} {l : List (String × α)} {k : String} {v : α}
    (h : assocFind l k = some v) : (k, v) ∈ l := by
  induction l with
  | nil => simp [assocFind] at h
  | cons q t ih =>
    obtain ⟨k1, v1⟩ := q
    simp only [assocFind] at h
    by_cases hk : k1 = k
    · rw [if_pos hk] at h
      obtain rfl : v1 = v := Option.some.inj h
      rw [hk]
      exact List.mem_cons_self _ _
    · rw [if_neg hk] at h
      exact List.mem_cons_of_mem _ (ih h)

/-- Assignment never produces an empty object. -/
theorem assocSet_ne_nil {α : Type} (l : List (String × α)) (k : String)
    (v : α) : assocSet l k v ≠ [] := by
  cases l with
  | nil => simp [assocSet]
  | cons q t =>
    obtain ⟨k1, v1⟩ := q
    by_cases h : k1 = k <;> simp [assocSet, h]

/-- The pruning invariant of the registry: every service entry holds at
least one key, and every key entry holds at least one callback. -/
def Pruned (r : Registry) : Prop :=
  ∀ p ∈ r, p.2 ≠ [] ∧ ∀ q ∈ p.2, q.2 ≠ []

/-- Assigning a non-empty,ally-pruned key map to a service keeps the
registry pruned. -/
theorem Pruned_assocSet {r : Registry} (h : Pruned r) {s : String}
    {ks : List (String × List Nat)} (hne : ks ≠ [])
    (hks : ∀ q ∈ ks, q.2 ≠ []) : Pruned (assocSet r s ks) := by
  intro p hp
  rcases mem_assocSet hp with h1 | h1
  · exact h p h1
  · subst h1
    exact ⟨hne, hks⟩

/-- Key maps taken from a pruned registry have no empty callback list. -/
theorem Pruned_inner {r : Registry} (h : Pruned r) {s : String}
    {ks : List (String × List Nat)} (hf : assocFind r s = some ks) :
    ∀ q ∈ ks, q.2 ≠ [] :=
  (h (s, ks) (assocFind_mem hf)).2

/-- Adding a callback via `_addTrack` keeps the registry pruned. -/
theorem Pruned_addTrack {r : Registry} (h : Pruned r) (s k : String)
    (cb : Nat) : Pruned (_addTrack r s k cb) := by
  unfold _addTrack
  refine Pruned_assocSet h (assocSet_ne_nil _ _ _) ?_
  intro q hq
  rcases mem_assocSet hq with h1 | h1
  · cases hf : assocFind r s with
    | none => rw [hf] at h1; simp at h1
    | some ks =>
      rw [hf] at h1
      exact Pruned_inner h hf q h1
  · subst h1
    cases hf2 : assocFind ((assocFind r s).getD []) k <;> simp [hf2]

/-- The registry mutation of `track` is exactly `_addTrack`. -/
theorem track_services (st : TwState) (s k : String) (cb : Nat) :
    (track st s k cb).st.services = _addTrack st.services s k cb := by
  rcases hsock : st.socket with _ | _ | rs
  · simp [track, hsock]
  · simp [track, hsock]
  · by_cases hr : rs = 1 <;> simp [track, hsock, hr]

/-- Removing a callback via `untrack` keeps the registry pruned. -/
theorem Pruned_untrack {st : TwState} (h : Pruned st.services)
    (s k : String) (cb : Nat) : Pruned (untrack st s k cb).st.services := by
  cases h1 : assocFind st.services s with
  | none => simpa [untrack, h1] using h
  | some ks =>
    cases h2 : assocFind ks k with
    | none => simpa [untrack, h1, h2] using h
    | some cbs =>
      cases h3 : removeFirst cbs cb with
      | none => simpa [untrack, h1, h2, h3] using h
      | some cbs' =>
        by_cases hnil : cbs' = []
        · by_cases hks : assocRemove ks k = []
          · by_cases hsvc : assocRemove st.services s = []
            · simp [untrack, h1, h2, h3, hnil, hks, hsvc, Pruned]
            · simp only [untrack, h1, h2, h3, hnil, hks, hsvc, if_neg hsvc,
                if_true, if_pos rfl]
              intro p hp
              exact h p (mem_assocRemove hp)
          · simp [untrack, h1, h2, h3, hnil, hks]
            refine Pruned_assocSet h hks ?_
            intro q hq
            exact Pruned_inner h h1 q (mem_assocRemove hq)
        · simp [untrack, h1, h2, h3, hnil]
          refine Pruned_assocSet h (assocSet_ne_nil _ _ _) ?_
          intro q hq
          rcases mem_assocSet hq with hq1 | hq1
          · exact Pruned_inner h h1 q hq1
          · subst hq1
            exact hnil

/-- A `track` or `untrack` call, viewed as a registry operation. -/
inductive RegOp where
  | track : String → String → Nat → RegOp
  | untrack : String → String → Nat → RegOp

/-- Apply one facade call to the module state (state part only). -/
def applyOp (st : TwState) : RegOp → TwState
  | .track s k cb => (track st s k cb).st
  | .untrack s k cb => (untrack st s k cb).st

/-- Run a sequence of facade calls from the initial module state. -/
def runOps (ops : List RegOp) : TwState :=
  ops.foldl applyOp twInit

/-- One facade call keeps the registry pruned. -/
theorem Pruned_applyOp {st : TwState} (h : Pruned st.services)
    (op : RegOp) : Pruned (applyOp st op).services := by
  cases op with
  | track s k cb =>
    rw [applyOp, track_services]
    exact Pruned_addTrack h s k cb
  | untrack s k cb => exact Pruned_untrack h s k cb

/-- C6: after any sequence of `track`/`untrack` calls from the initial
state, the registry satisfies the pruning invariant — a service entry
exists only with at least one key, and a key entry only with at least one
callback; no empty branch is ever retained. -/
theorem C6_registry_pruned (ops : List RegOp) :
    Pruned (runOps ops).services := by
  have hgen : ∀ st, Pruned st.services →
      Pruned (ops.foldl applyOp st).services := by
    induction ops with
    | nil => exact fun st h => h
    | cons op t ih =>
      intro st h
      exact ih _ (Pruned_applyOp h op)
  refine hgen twInit ?_
  intro p hp
  simp [twInit] at hp

/-- State reached after a first `track` call: open in flight. -/
def stTrace1 : TwState := (track twInit "s" "k" 0).st

/-- State after the handshake resolves: socket connecting, timer set. -/
def stTrace2 : TwState := (_openSocketResolved stTrace1 true).st

/-- State after the transport closes while the close flag is still true
(the server closed before authorizing): the socket reference is back to
`null` while one topic remains registered. -/
def stTrace3 : TwState := (_handleClose stTrace2).st

/-- C7 counterexample: in the reachable state `stTrace3` (track, then
handshake resolution, then a pre-authorization close), the registry is
non-empty and the final `untrack` empties it, yet no close call at all is
issued — the source only closes when the socket reference is truthy,
which it is not here — contradicting the claim that exactly one
intentional close is always issued. -/
theorem C7_counterexample :
    stTrace3.services ≠ [] ∧
    (untrack stTrace3 "s" "k" 0).st.services = [] ∧
    (untrack stTrace3 "s" "k" 0).effects.filter isCloseEff = [] := by
  refine ⟨?_, rfl, rfl⟩
  decide

/-- C7 (amended): when an `untrack` call takes the registry from
non-empty to empty, the keepalive handle is nulled (with a
`clearInterval` of any running timer) and the close flag set; the single
intentional close with `(1000, 'nothing else to track')` is issued if and
only if the socket reference is an actual socket object — with a `null`
or `false` reference no close call is made. -/
theorem C7_empty_registry_cleanup (st : TwState) (s k : String) (cb : Nat)
    (hne : st.services ≠ [])
    (hempty : (untrack st s k cb).st.services = []) :
    (untrack st s k cb).st.ping = none ∧
    (untrack st s k cb).st.close = true ∧
    (∀ id, st.ping = some id →
      Effect.clearInterval id ∈ (untrack st s k cb).effects) ∧
    (∀ rs, st.socket = .sock rs →
      (untrack st s k cb).effects.filter isCloseEff =
        [Effect.closeSock 1000 "nothing else to track"]) ∧
    ((st.socket = .jsNull ∨ st.socket = .jsFalse) →
      (untrack st s k cb).effects.filter isCloseEff = []) := by
  cases h1 : assocFind st.services s with
  | none =>
    have hu : (untrack st s k cb).st.services = st.services := by
      simp [untrack, h1]
    rw [hu] at hempty
    exact absurd hempty hne
  | some ks =>
    cases h2 : assocFind ks k with
    | none =>
      have hu : (untrack st s k cb).st.services = st.services := by
        simp [untrack, h1, h2]
      rw [hu] at hempty
      exact absurd hempty hne
    | some cbs =>
      cases h3 : removeFirst cbs cb with
      | none =>
        have hu : (untrack st s k cb).st.services = st.services := by
          simp [untrack, h1, h2, h3]
        rw [hu] at hempty
        exact absurd hempty hne
      | some cbs' =>
        by_cases hnil : cbs' = []
        · by_cases hks : assocRemove ks k = []
          · by_cases hsvc : assocRemove st.services s = []
            · refine ⟨?_, ?_, ?_, ?_, ?_⟩
              · simp [untrack, h1, h2, h3, hnil, hks, hsvc]
              · simp [untrack, h1, h2, h3, hnil, hks, hsvc]
              · intro id hid
                simp [untrack, h1, h2, h3, hnil, hks, hsvc, hid]
              · intro rs hsock
                rcases hp : st.ping with _ | pid <;> by_cases hr : rs = 1 <;>
                  simp [untrack, h1, h2, h3, hnil, hks, hsvc, hsock, hp, hr,
                    isCloseEff, List.filter_append]
              · intro hsock
                rcases hsock with hsock | hsock <;>
                rcases hp : st.ping with _ | pid <;>
                  simp [untrack, h1, h2, h3, hnil, hks, hsvc, hsock, hp,
                    isCloseEff, List.filter_append]
            · have hu : (untrack st s k cb).st.services =
                  assocRemove st.services s := by
                simp [untrack, h1, h2, h3, hnil, hks, hsvc]
              rw [hu] at hempty
              exact absurd hempty hsvc
          · have hu : (untrack st s k cb).st.services =
                assocSet st.services s (assocRemove ks k) := by
              simp [untrack, h1, h2, h3, hnil, hks]
            rw [hu] at hempty
            exact absurd hempty (assocSet_ne_nil _ _ _)
        · have hu : (untrack st s k cb).st.services =
              assocSet st.services s (assocSet ks k cbs') := by
            simp [untrack, h1, h2, h3, hnil]
          rw [hu] at hempty
          exact absurd hempty (assocSet_ne_nil _ _ _)

/-- A state with one registered topic, an open socket and a running
timer. -/
def stW7 : TwState :=
  { twInit with
    services := [("s", [("k", [0])])], socket := .sock 1, ping := some 7 }

/-- C7 witness: the amended theorem at a concrete one-topic state with an
open socket and a running timer. -/
theorem C7_empty_registry_cleanup_witness :
    (untrack stW7 "s" "k" 0).st.ping = none ∧
    (untrack stW7 "s" "k" 0).st.close = true ∧
    Effect.clearInterval 7 ∈ (untrack stW7 "s" "k" 0).effects ∧
    (untrack stW7 "s" "k" 0).effects.filter isCloseEff =
      [Effect.closeSock 1000 "nothing else to track"] :=
  ⟨(C7_empty_registry_cleanup stW7 "s" "k" 0 (by decide) rfl).1,
   (C7_empty_registry_cleanup stW7 "s" "k" 0 (by decide) rfl).2.1,
   (C7_empty_registry_cleanup stW7 "s" "k" 0 (by decide) rfl).2.2.1 7 rfl,
   (C7_empty_registry_cleanup stW7 "s" "k" 0 (by decide) rfl).2.2.2.1 1 rfl⟩

/-- C8: a data frame whose decoded form carries a string service, a
string key and a payload leaves the state untouched and never throws;
when the topic is registered every one of its callbacks is invoked
exactly once, in registration order, with the payload, and when the
service or key is unknown the dispatch is a silent no-op with no error
reported. -/
theorem C8_dispatch (parse : String → Option Json) (st : TwState)
    (s svc key : String) (payload : Json)
    (hs : s ≠ "authorized") (hpg : s ≠ "pong")
    (hparse : parse s = some (Json.obj
      [("service", .str svc), ("key", .str key), ("data", payload)])) :
    (_handleMessage parse st (.str s)).thrown = false ∧
    (_handleMessage parse st (.str s)).st = st ∧
    ((_handleMessage parse st (.str s)).effects =
      match lookup2 st.services svc key with
      | some cbs => cbs.map (fun f => Effect.cb f (some payload))
      | none => []) := by
  have hred : _handleMessage parse st (.str s) =
      handleStruct st (Json.obj
        [("service", .str svc), ("key", .str key), ("data", payload)]) [] := by
    simp [_handleMessage, hs, hpg, hparse, handleDecoded]
  rw [hred]
  have h1 : jsGet (Json.obj [("service", Json.str svc), ("key", Json.str key),
      ("data", payload)]) "error" = none := rfl
  have h2 : jsGet (Json.obj [("service", Json.str svc), ("key", Json.str key),
      ("data", payload)]) "service" = some (Json.str svc) := rfl
  have h3 : jsGet (Json.obj [("service", Json.str svc), ("key", Json.str key),
      ("data", payload)]) "key" = some (Json.str key) := rfl
  have h4 : jsGet (Json.obj [("service", Json.str svc), ("key", Json.str key),
      ("data", payload)]) "data" = some payload := rfl
  have h6 : ∀ x : String, jsToString (some (Json.str x)) = x := fun _ => rfl
  unfold handleStruct
  rw [h1, h2, h3, h4]
  simp only [show jsTruthy none = false from rfl, Bool.false_eq_true,
    if_false, h6, lookup2]
  cases hf : assocFind st.services svc with
  | none => simp [hf]
  | some ks =>
    cases hf2 : assocFind ks key with
    | none => simp [hf, hf2]
    | some cbs => simp [hf, hf2]

/-- A state with two callbacks registered for the topic of the spec's
example frame. -/
def stW8 : TwState :=
  { twInit with services := [("chat", [("room1", [0, 1])])] }

/-- The decoded form of the example frame. -/
def parseW8 : String → Option Json := fun _ =>
  some (Json.obj [("service", .str "chat"), ("key", .str "room1"),
    ("data", .obj [("text", .str "hi")])])

/-- C8 witness: the theorem at the spec's example — both callbacks of
`("chat", "room1")` invoked once each, in order, with the payload. -/
theorem C8_dispatch_witness :
    (_handleMessage parseW8 stW8 (.str "m")).thrown = false ∧
    (_handleMessage parseW8 stW8 (.str "m")).st = stW8 ∧
    (_handleMessage parseW8 stW8 (.str "m")).effects =
      [Effect.cb 0 (some (.obj [("text", .str "hi")])),
       Effect.cb 1 (some (.obj [("text", .str "hi")]))] :=
  C8_dispatch parseW8 stW8 "m" "chat" "room1" (.obj [("text", .str "hi")])
    (by decide) (by decide) rfl

/-- Dispatching via `handleStruct` never mutates the module state. -/
theorem handleStruct_st (st : TwState) (j : Json) (effs : List Effect) :
    (handleStruct st j effs).st = st := by
  unfold handleStruct
  split
  · rfl
  · split
    · rfl
    · split
      · rfl
      · rfl

/-- Dispatching via `handleDecoded` never mutates the module state. -/
theorem handleDecoded_st (st : TwState) (oMsg : Option Json)
    (effs : List Effect) : (handleDecoded st oMsg effs).st = st := by
  cases oMsg with
  | none => rfl
  | some j =>
    cases j
    case null => rfl
    all_goals exact handleStruct_st _ _ _

/-- C9: an unexpected close (flag false, timer running) clears the
keepalive interval but leaves the stale timer handle in place; since the
open routine only starts a new interval when the handle is `null`, and
neither the close handler, the message handler nor `track` ever starts
one or resets the handle, no keepalive interval ever runs again after the
first unexpected disconnect — until the registry empties, which is the
only place the handle is nulled. -/
theorem C9_ping_never_restarted (st : TwState) (id : Nat)
    (hping : st.ping = some id) (hflag : st.close = false) :
    (_handleClose st).st.ping = some id ∧
    Effect.clearInterval id ∈ (_handleClose st).effects ∧
    (∀ st2, st2.ping = some id →
      (_openSocketResolved st2 true).st.ping = some id ∧
      (_openSocketResolved st2 true).effects.countP isIntervalEff = 0) ∧
    (∀ st2, (_handleClose st2).st.ping = st2.ping) ∧
    (∀ parse d st2, (_handleMessage parse st2 d).st.ping = st2.ping ∧
      (_handleMessage parse st2 d).effects.countP isIntervalEff = 0) ∧
    (∀ st2 s k cb, (track st2 s k cb).st.ping = st2.ping ∧
      (track st2 s k cb).effects.countP isIntervalEff = 0) := by
  refine ⟨?_, ?_, ?_, ?_, ?_, ?_⟩
  · simp [_handleClose, hflag, hping]
  · simp [_handleClose, hflag, hping]
  · intro st2 h2
    simp [_openSocketResolved, h2]
  · intro st2
    cases hc : st2.close <;> simp [_handleClose, hc]
  · intro parse d st2
    have hzero : ∀ oMsg effs,
        (∀ e ∈ effs, isIntervalEff e = false) →
        (handleDecoded st2 oMsg effs).effects.countP isIntervalEff = 0 := by
      intro oMsg effs heffs
      rw [List.countP_eq_zero]
      intro e he
      rcases handleDecoded_mem_effects _ _ _ _ he with h | h | h
      · simp [heffs e h]
      · rcases h with ⟨f, p', rfl⟩
        simp [isIntervalEff]
      · rcases h with ⟨m, rfl⟩
        simp [isIntervalEff]
    cases d with
    | str s =>
      by_cases ha : s = "authorized"
      · subst ha
        exact ⟨rfl, rfl⟩
      · by_cases hpg : s = "pong"
        · subst hpg
          simp [_handleMessage, ha]
        · cases hp2 : parse s with
          | none => simp [_handleMessage, ha, hpg, hp2]
          | some j =>
            have hred : _handleMessage parse st2 (.str s) =
                handleDecoded st2 (some j) [] := by
              simp [_handleMessage, ha, hpg, hp2]
            rw [hred, handleDecoded_st]
            exact ⟨rfl, hzero (some j) [] (by simp)⟩
    | other tname =>
      have hred : _handleMessage parse st2 (.other tname) =
          handleDecoded st2 none
            [Effect.error
              ("twoway: websocket failed, got unknown data: " ++ tname)] := rfl
      rw [hred, handleDecoded_st]
      refine ⟨rfl, hzero none _ ?_⟩
      intro e he
      rw [List.mem_singleton] at he
      subst he
      rfl
  · intro st2 s k cb
    rcases hsock : st2.socket with _ | _ | rs
    · simp [track, hsock, isIntervalEff]
    · simp [track, hsock]
    · by_cases hr : rs = 1 <;> simp [track, hsock, hr, isIntervalEff]

/-- A state with a running timer that closes unexpectedly. -/
def stW9 : TwState := { twInit with ping := some 3, close := false }

/-- C9 witness: the theorem at a concrete unexpected close — the handle
survives the close and the subsequent reconnect starts no interval. -/
theorem C9_ping_never_restarted_witness :
    (_handleClose stW9).st.ping = some 3 ∧
    Effect.clearInterval 3 ∈ (_handleClose stW9).effects ∧
    (_openSocketResolved (_handleClose stW9).st true).st.ping = some 3 ∧
    (_openSocketResolved (_handleClose stW9).st true).effects.countP
      isIntervalEff = 0 :=
  ⟨(C9_ping_never_restarted stW9 3 rfl rfl).1,
   (C9_ping_never_restarted stW9 3 rfl rfl).2.1,
   ((C9_ping_never_restarted stW9 3 rfl rfl).2.2.1 (_handleClose stW9).st
     (C9_ping_never_restarted stW9 3 rfl rfl).1).1,
   ((C9_ping_never_restarted stW9 3 rfl rfl).2.2.1 (_handleClose stW9).st
     (C9_ping_never_restarted stW9 3 rfl rfl).1).2⟩
